import Mathlib

/-!
Shallow embedding of `src/index.tsx` (Commons-Explorer), covering the two
controllers the specification describes: the search/pagination controller
(`handleSearch` / `fetchImages`) and the AI-assist controller
(`generateAiContent` / `openLightbox` / `closeLightbox`).

Network calls are modelled by threading the environment's answer as an
explicit `Except` argument, and each controller step reports the requests it
actually issued, so that "no network request is made" is a provable
statement about the model.
-/

namespace CommonsExplorer

/-- One `imageinfo` entry of a result page (`iiprop: url|user|extmetadata`).
`artist` models `extmetadata?.Artist?.value`: `none` when the optional
chain is undefined. -/
structure ImageInfo where
  url : String
  thumburl : String
  user : String
  artist : Option String
  deriving Repr, DecidableEq

/-- A result page as delivered in `response.data.query.pages`.  The code
reads `page.imageinfo[0]`; we keep the array and read its head. -/
structure Page where
  title : String
  imageinfo : List ImageInfo
  deriving Repr, DecidableEq

/-- The card built by `makeImageCard`: the data it displays plus the data
its click handler passes to `openLightbox`. -/
structure Card where
  thumb : String
  title : String
  author : String
  url : String
  deriving Repr, DecidableEq

/-- JavaScript `str.replace('File:', '')` with a *string* pattern replaces
only the first occurrence. -/
def replaceFirst (s pat : String) : String :=
  match s.splitOn pat with
  | [] => s
  | [p] => p
  | p :: rest => p ++ String.intercalate pat rest

/-- `filename.replace(/\.[^\/.]+$/, "")`: strip a final `.ext` segment whose
`ext` is nonempty and contains neither `.` nor `/` (only the last dot can
match, since the match must run to the end of the string). -/
def stripExt (s : String) : String :=
  let cs := s.toList
  let ext := cs.reverse.takeWhile (fun c => c ≠ '.')
  if ext.length < cs.length && 0 < ext.length && !ext.contains '/' then
    String.mk (cs.take (cs.length - ext.length - 1))
  else s

/-- JavaScript truthiness of an optional string: `undefined` and `""` are
both falsy. -/
def truthyStr : Option String → Bool
  | none => false
  | some s => s ≠ ""

/-- `makeImageCard` (src/index.tsx:198): derive the display title from the
file name, falling back to `Uploader: <user>` when
`extmetadata?.Artist?.value` is falsy. -/
def makeImageCard (page : Page) : Card :=
  let info := page.imageinfo.headD ⟨"", "", "", none⟩
  let filename := replaceFirst page.title "File:"
  let title := stripExt filename
  let author :=
    if truthyStr info.artist then info.artist.getD ""
    else "Uploader: " ++ info.user
  { thumb := info.thumburl, title := title, author := author, url := info.url }

/-- `response.data.query`: carries the optional `pages` map.  The list holds
the pages in the order `Object.values` yields them, which is the order the
code appends cards in. -/
structure QueryObj where
  pages : Option (List Page)
  deriving Repr, DecidableEq

/-- `response.data.continue` (named `cont` since `continue` is reserved). -/
structure ContinueObj where
  gsroffset : Nat
  deriving Repr, DecidableEq

/-- Parsed body of a successful search response (`response.data`). -/
structure RespData where
  query : Option QueryObj
  cont : Option ContinueObj
  deriving Repr, DecidableEq

/-- The module-level pagination state plus the DOM pieces the controller
mutates: `results` holds the cards of `resultsContainer`, `noResults` and
`initialLoader` the visibility of the two status elements. -/
structure PagState where
  currentQuery : String
  gsroffset : Nat
  isLoading : Bool
  hasMore : Bool
  results : List Card
  noResults : Bool
  initialLoader : Bool
  deriving Repr, DecidableEq

/-- A search request as issued by `fetchImages`: the parameters that vary
between calls (the rest of `params` is constant). -/
structure FetchRequest where
  query : String
  offset : Nat
  deriving Repr, DecidableEq

/-- The entry guard of `fetchImages` (src/index.tsx:233):
`if (isLoading || !hasMore || !currentQuery) return`. -/
def fetchGuard (s : PagState) : Bool :=
  s.isLoading || !s.hasMore || s.currentQuery == ""

/-- The write `isLoading = true` performed right after the guard, while the
request is in flight. -/
def fetchStart (s : PagState) : PagState :=
  { s with isLoading := true }

/-- The rest of `fetchImages` once the awaited response (or the thrown
error) arrives: the `try`/`catch` bodies, with the trailing
`isLoading := false` being the `finally` block. -/
def fetchComplete (s : PagState) (resp : Except Unit RespData) : PagState :=
  let s' :=
    match resp with
    | .error _ => { s with hasMore := false, initialLoader := false }
    | .ok d =>
      let s1 := { s with initialLoader := false }
      let s2 :=
        if s1.gsroffset == 0 && d.query.isNone then
          { s1 with noResults := true, hasMore := false }
        else
          match d.query.bind (fun q => q.pages) with
          | some pages => { s1 with results := s1.results ++ pages.map makeImageCard }
          | none => s1
      match d.cont with
      | some c => { s2 with gsroffset := c.gsroffset }
      | none => { s2 with hasMore := false }
  { s' with isLoading := false }

/-- `fetchImages` (src/index.tsx:232) as one atomic step: given the
pre-state and the environment's answer to the request it would issue,
return the post-state together with the list of requests actually sent
(empty when the guard fires). -/
def fetchImages (s : PagState) (resp : Except Unit RespData) :
    PagState × List FetchRequest :=
  if fetchGuard s then (s, [])
  else (fetchComplete (fetchStart s) resp, [⟨s.currentQuery, s.gsroffset⟩])

/-- The state writes `handleSearch` performs before calling `fetchImages`
(src/index.tsx:279-284).  Note that `isLoading` is not among them. -/
def resetQueryState (s : PagState) (query : String) : PagState :=
  { s with currentQuery := query, gsroffset := 0, hasMore := true,
           results := [], noResults := false, initialLoader := true }

/-- `handleSearch` (src/index.tsx:274); `query` is the already-resolved
submitted text (`queryStr || searchInput.value.trim()`). -/
def handleSearch (s : PagState) (query : String) (resp : Except Unit RespData) :
    PagState × List FetchRequest :=
  if query == "" || query == s.currentQuery then (s, [])
  else fetchImages (resetQueryState s query) resp

/-- The active Image Reference (`currentImageData`). -/
structure ImageData where
  url : String
  title : String
  mimeType : Option String
  base64 : Option String
  deriving Repr, DecidableEq

/-- Result of a successful `imageUrlToBase64` call. -/
structure Encoding where
  mimeType : String
  data : String
  deriving Repr, DecidableEq

/-- Effect of `openLightbox` on `currentImageData` (src/index.tsx:173): a
fresh reference with no cached encoding. -/
def openLightbox (url title : String) : Option ImageData :=
  some { url := url, title := title, mimeType := none, base64 := none }

/-- Effect of `closeLightbox` on `currentImageData` (src/index.tsx:194). -/
def closeLightbox : Option ImageData :=
  none

/-- The inline error written into `displayEl` when the `try` block of
`generateAiContent` throws (src/index.tsx:128). -/
def errorHtml (msg : String) : String :=
  "<p class=\"error\">AI unavailable: " ++ msg ++ "</p>"

/-- Outcome of one `generateAiContent` call: the Image Reference afterwards,
the content of `displayEl` afterwards, and how many image-encoding fetches
(`imageUrlToBase64`) and generation requests (`generateContentStream`) the
call issued. -/
structure GenResult where
  imageData : Option ImageData
  display : String
  encodeFetches : Nat
  genRequests : Nat
  deriving Repr, DecidableEq

/-- `generateAiContent` (src/index.tsx:88) as one atomic step.  `display` is
the content of `displayEl` on entry.  `enc` is the environment's answer to
`imageUrlToBase64`, consulted only when the cache check
`if (!currentImageData.base64)` fires — JavaScript truthiness, so an empty
cached string counts as absent.  `stream` is the answer to
`generateContentStream`: either the chunk texts in arrival order, or the
message of a thrown error.  For a non-chat call the pane is cleared first
and the stream container is the pane itself; for a chat call a fresh
message element is appended to the transcript. -/
def generateAiContent (imageData : Option ImageData) (display : String)
    (isChat : Bool) (enc : Except String Encoding)
    (stream : Except String (List String)) : GenResult :=
  match imageData with
  | none =>
    { imageData := none, display := display, encodeFetches := 0, genRequests := 0 }
  | some img =>
    let display1 := if isChat then display else ""
    let encStep : Except String (ImageData × Nat) :=
      if truthyStr img.base64 then .ok (img, 0)
      else
        match enc with
        | .error msg => .error msg
        | .ok e => .ok ({ img with mimeType := some e.mimeType, base64 := some e.data }, 1)
    match encStep with
    | .error msg =>
      { imageData := some img, display := display1 ++ errorHtml msg,
        encodeFetches := 1, genRequests := 0 }
    | .ok (img2, n) =>
      match stream with
      | .error msg =>
        { imageData := some img2, display := display1 ++ errorHtml msg,
          encodeFetches := n, genRequests := 1 }
      | .ok chunks =>
        { imageData := some img2, display := display1 ++ String.join chunks,
          encodeFetches := n, genRequests := 1 }

/-! Concrete sample values, used by the evaluation witnesses below. -/

/-- A sample `imageinfo` entry without artist metadata. -/
def demoInfo : ImageInfo :=
  ⟨"https://i/full.jpg", "https://i/thumb.jpg", "alice", none⟩

/-- A sample result page. -/
def demoPage : Page :=
  ⟨"File:Cat.jpg", [demoInfo]⟩

/-- A sample successful response: one page and a continuation offset. -/
def demoResp : RespData :=
  ⟨some ⟨some [demoPage]⟩, some ⟨24⟩⟩

/-- A sample idle pagination state with an active query. -/
def demoIdle : PagState :=
  ⟨"cats", 0, false, true, [], false, false⟩

/-- A sample exhausted pagination state (`hasMore = false`). -/
def demoDone : PagState :=
  ⟨"cats", 24, false, false, [], false, false⟩

/-- `fetchComplete` never changes the current query. -/
theorem fetchComplete_currentQuery (s : PagState) (resp : Except Unit RespData) :
    (fetchComplete s resp).currentQuery = s.currentQuery := by
  rcases resp with _ | d
  · rfl
  · simp only [fetchComplete]
    rcases d with ⟨q, c⟩
    rcases c with _ | c <;> dsimp only <;> split <;>
      first
        | rfl
        | (split <;> rfl)

/-- C3: `loadNextPage` is a no-op — identical state, no request issued —
whenever `isLoading` is true, or `hasMore` is false, or no query is set; in
particular once `hasMore` is false no further fetch occurs until a new
search resets it. -/
theorem loadNextPage_guard_noop (s : PagState) (resp : Except Unit RespData)
    (h : s.isLoading = true ∨ s.hasMore = false ∨ s.currentQuery = "") :
    fetchImages s resp = (s, []) := by
  have hg : fetchGuard s = true := by
    unfold fetchGuard
    rcases h with h | h | h <;> simp [h]
  simp [fetchImages, hg]

/-- C3 witness: on an exhausted state, a `loadNextPage` call changes nothing
and sends nothing. -/
theorem loadNextPage_guard_noop_witness :
    (demoDone.isLoading = true ∨ demoDone.hasMore = false ∨
      demoDone.currentQuery = "") ∧
    fetchImages demoDone (.error ()) = (demoDone, []) :=
  ⟨Or.inr (Or.inl rfl),
    loadNextPage_guard_noop demoDone (.error ()) (Or.inr (Or.inl rfl))⟩

/-- C4: a transport/parse failure sets `hasMore := false` after issuing
exactly one request (no retry), and any later `loadNextPage` call is then a
no-op, so a single failure permanently ends pagination for the query. -/
theorem fetch_failure_fails_closed (s : PagState) (resp2 : Except Unit RespData)
    (hg : fetchGuard s = false) :
    ((fetchImages s (.error ())).1).hasMore = false ∧
    (fetchImages s (.error ())).2 = [⟨s.currentQuery, s.gsroffset⟩] ∧
    fetchImages ((fetchImages s (.error ())).1) resp2 =
      ((fetchImages s (.error ())).1, []) := by
  have h1 : (fetchImages s (.error ())).1 =
      { s with hasMore := false, initialLoader := false, isLoading := false } := by
    simp [fetchImages, hg, fetchComplete, fetchStart]
  refine ⟨by rw [h1], by simp [fetchImages, hg], ?_⟩
  rw [h1]
  simp [fetchImages, fetchGuard]

/-- C4 witness: evaluated on the idle sample state. -/
theorem fetch_failure_fails_closed_witness :
    fetchGuard demoIdle = false ∧
    (((fetchImages demoIdle (.error ())).1).hasMore = false ∧
      (fetchImages demoIdle (.error ())).2 = [⟨demoIdle.currentQuery, demoIdle.gsroffset⟩] ∧
      fetchImages ((fetchImages demoIdle (.error ())).1) (.ok demoResp) =
        ((fetchImages demoIdle (.error ())).1, [])) :=
  ⟨by decide, fetch_failure_fails_closed demoIdle (.ok demoResp) (by decide)⟩

/-- C5: whenever the entry guard passes, `fetchImages` first sets
`isLoading := true`, and whatever the outcome of the request, the `finally`
block leaves `isLoading = false` afterwards. -/
theorem isLoading_set_then_cleared (s : PagState) (resp : Except Unit RespData)
    (hg : fetchGuard s = false) :
    (fetchStart s).isLoading = true ∧
    ((fetchImages s resp).1).isLoading = false := by
  refine ⟨rfl, ?_⟩
  simp only [fetchImages, hg, Bool.false_eq_true, if_false]
  rfl

/-- C5 witness: evaluated on the idle sample state with a successful
response. -/
theorem isLoading_set_then_cleared_witness :
    fetchGuard demoIdle = false ∧
    ((fetchStart demoIdle).isLoading = true ∧
      ((fetchImages demoIdle (.ok demoResp)).1).isLoading = false) :=
  ⟨by decide, isLoading_set_then_cleared demoIdle (.ok demoResp) (by decide)⟩

/-- C1 counterexample: call `search "cats"` while a fetch is in flight
(`isLoading = true`) with a different current query.  `handleSearch` writes
`currentQuery`, `gsroffset` and `hasMore` but never writes `isLoading`, so
the Query State is *not* reset to `(query, 0, false, true)` — `isLoading`
stays `true` — and because `fetchImages` then hits its guard, no first page
fetch is started at all. -/
theorem search_does_not_reset_isLoading :
    (resetQueryState ⟨"landscape", 8, true, true, [], false, false⟩ "cats").isLoading
      = true ∧
    (handleSearch ⟨"landscape", 8, true, true, [], false, false⟩ "cats" (.error ())).2
      = [] := by
  exact ⟨rfl, by decide⟩

/-- C1 (amended): on a `search(query)` call with a non-empty query different
from the current one, the state passed to the first `fetchImages` call has
`currentQuery = query`, `cursor = 0`, `hasMore = true` and cleared results,
while `isLoading` is left unchanged; the first page fetch is then started
from exactly that state (and so only proceeds if `isLoading` was already
false). -/
theorem search_resets_query_state (s : PagState) (q : String)
    (resp : Except Unit RespData) (h1 : q ≠ "") (h2 : q ≠ s.currentQuery) :
    (resetQueryState s q).currentQuery = q ∧
    (resetQueryState s q).gsroffset = 0 ∧
    (resetQueryState s q).hasMore = true ∧
    (resetQueryState s q).isLoading = s.isLoading ∧
    (resetQueryState s q).results = [] ∧
    handleSearch s q resp = fetchImages (resetQueryState s q) resp := by
  have hq1 : (q == "") = false := by simp [h1]
  have hq2 : (q == s.currentQuery) = false := by simp [h2]
  exact ⟨rfl, rfl, rfl, rfl, rfl, by simp [handleSearch, hq1, hq2]⟩

/-- C1 witness: evaluated for a fresh search `"dogs"` on the idle sample
state. -/
theorem search_resets_query_state_witness :
    ("dogs" ≠ "" ∧ "dogs" ≠ demoIdle.currentQuery) ∧
    ((resetQueryState demoIdle "dogs").currentQuery = "dogs" ∧
      (resetQueryState demoIdle "dogs").gsroffset = 0 ∧
      (resetQueryState demoIdle "dogs").hasMore = true ∧
      (resetQueryState demoIdle "dogs").isLoading = demoIdle.isLoading ∧
      (resetQueryState demoIdle "dogs").results = [] ∧
      handleSearch demoIdle "dogs" (.ok demoResp) =
        fetchImages (resetQueryState demoIdle "dogs") (.ok demoResp)) :=
  ⟨⟨by decide, by decide⟩,
    search_resets_query_state demoIdle "dogs" (.ok demoResp) (by decide) (by decide)⟩

/-- C2: when the guard passes and the response carries a result set, the
fetch appends exactly one card per returned page — `makeImageCard` of it —
to the existing cards, in the order the pages are listed. -/
theorem fetch_appends_one_card_per_result (s : PagState) (d : RespData)
    (qo : QueryObj) (pages : List Page) (hg : fetchGuard s = false)
    (hq : d.query = some qo) (hp : qo.pages = some pages) :
    ((fetchImages s (.ok d)).1).results = s.results ++ pages.map makeImageCard := by
  simp only [fetchImages, hg, Bool.false_eq_true, if_false]
  have hnone : d.query.isNone = false := by rw [hq]; rfl
  have hbind : d.query.bind (fun q => q.pages) = some pages := by
    rw [hq]; simpa using hp
  rcases d with ⟨q, c⟩
  rcases c with _ | c <;>
    simp [fetchComplete, fetchStart, hnone, hbind]

/-- C2 witness: one returned page yields exactly one appended card. -/
theorem fetch_appends_one_card_per_result_witness :
    (fetchGuard demoIdle = false ∧
      demoResp.query = some ⟨some [demoPage]⟩ ∧
      (⟨some [demoPage]⟩ : QueryObj).pages = some [demoPage]) ∧
    ((fetchImages demoIdle (.ok demoResp)).1).results =
      demoIdle.results ++ [demoPage].map makeImageCard :=
  ⟨⟨by decide, by decide, by decide⟩,
    fetch_appends_one_card_per_result demoIdle demoResp ⟨some [demoPage]⟩
      [demoPage] (by decide) (by decide) (by decide)⟩

/-- C9: from a state with no fetch in flight, submitting the same non-empty
fresh query twice in a row performs exactly one fetch: the first call issues
a single request, and the second call is silently ignored — it returns the
state unchanged and issues no request. -/
theorem duplicate_search_single_fetch (s : PagState) (q : String)
    (resp1 resp2 : Except Unit RespData) (h1 : q ≠ "")
    (h2 : q ≠ s.currentQuery) (h3 : s.isLoading = false) :
    handleSearch (handleSearch s q resp1).1 q resp2 =
      ((handleSearch s q resp1).1, []) ∧
    (handleSearch s q resp1).2.length = 1 := by
  have hq1 : (q == "") = false := by simp [h1]
  have hq2 : (q == s.currentQuery) = false := by simp [h2]
  have hfirst : handleSearch s q resp1 =
      (fetchComplete (fetchStart (resetQueryState s q)) resp1, [⟨q, 0⟩]) := by
    simp [handleSearch, hq1, hq2, fetchImages, resetQueryState, fetchGuard, h3]
  have hcur : ((handleSearch s q resp1).1).currentQuery = q := by
    rw [hfirst]
    exact fetchComplete_currentQuery _ _
  constructor
  · generalize hs1 : (handleSearch s q resp1).1 = s1 at hcur ⊢
    simp [handleSearch, hcur]
  · rw [hfirst]
    rfl

/-- C9 witness: searching `"cats"` twice from a fresh state. -/
theorem duplicate_search_single_fetch_witness :
    ("cats" ≠ "" ∧
      "cats" ≠ (⟨"", 0, false, true, [], false, false⟩ : PagState).currentQuery ∧
      (⟨"", 0, false, true, [], false, false⟩ : PagState).isLoading = false) ∧
    (handleSearch
        (handleSearch ⟨"", 0, false, true, [], false, false⟩ "cats" (.ok demoResp)).1
        "cats" (.error ()) =
      ((handleSearch ⟨"", 0, false, true, [], false, false⟩ "cats" (.ok demoResp)).1, []) ∧
      (handleSearch ⟨"", 0, false, true, [], false, false⟩ "cats" (.ok demoResp)).2.length = 1) :=
  ⟨⟨by decide, by decide, by decide⟩,
    duplicate_search_single_fetch ⟨"", 0, false, true, [], false, false⟩ "cats"
      (.ok demoResp) (.error ()) (by decide) (by decide) (by decide)⟩

/-- C6 counterexample: the cache check is `if (!currentImageData.base64)`,
JavaScript truthiness, so a successfully cached *empty* encoding is treated
as absent.  Select an image, run a first `generate()` whose encoding fetch
succeeds with data `""`: the encoding is cached, yet a second `generate()`
for the same selection issues another encoding fetch (count 1, not 0),
refuting "the image encoding is fetched at most once per selection". -/
theorem encode_refetched_on_empty_encoding :
    (generateAiContent
        ((generateAiContent (openLightbox "https://i/full.jpg" "Sunset") "" false
            (.ok ⟨"image/png", ""⟩) (.ok ["x"])).imageData)
        "" false (.ok ⟨"image/png", ""⟩) (.ok ["x"])).encodeFetches = 1 := by
  decide

/-- C6 (amended): within one selection the encoding is fetched and cached at
most once *provided the fetched data is non-empty*: the first `generate()`
call that needs it populates `mimeType` and `base64`, and every later
`generate()` call reuses the cache without re-fetching and leaves the
reference unchanged (the cache check uses JavaScript truthiness, so an empty
cached string would be re-fetched).  The cache returns to absent only via
`openLightbox` — which installs a fresh reference without an encoding — or
`closeLightbox`. -/
theorem encode_cached_once (img : ImageData) (e : Encoding)
    (stream stream2 : Except String (List String)) (enc2 : Except String Encoding)
    (d2 u t : String) (c2 : Bool) (habs : img.base64 = none) (he : e.data ≠ "") :
    (generateAiContent (some img) "" false (.ok e) stream).imageData =
      some { img with mimeType := some e.mimeType, base64 := some e.data } ∧
    (generateAiContent (some img) "" false (.ok e) stream).encodeFetches = 1 ∧
    (generateAiContent ((generateAiContent (some img) "" false (.ok e) stream).imageData)
        d2 c2 enc2 stream2).encodeFetches = 0 ∧
    (generateAiContent ((generateAiContent (some img) "" false (.ok e) stream).imageData)
        d2 c2 enc2 stream2).imageData =
      (generateAiContent (some img) "" false (.ok e) stream).imageData ∧
    openLightbox u t = some ⟨u, t, none, none⟩ ∧
    closeLightbox = none := by
  rcases stream with m | ch <;>
    rcases stream2 with m2 | ch2 <;>
      simp [generateAiContent, truthyStr, habs, he, openLightbox, closeLightbox]

/-- C6 witness: a non-empty encoding is fetched once and reused by the
second call. -/
theorem encode_cached_once_witness :
    ((⟨"https://i/full.jpg", "Sunset", none, none⟩ : ImageData).base64 = none ∧
      (⟨"image/png", "QUJD"⟩ : Encoding).data ≠ "") ∧
    ((generateAiContent (some ⟨"https://i/full.jpg", "Sunset", none, none⟩) "" false
        (.ok ⟨"image/png", "QUJD"⟩) (.ok ["x"])).imageData =
      some ⟨"https://i/full.jpg", "Sunset", some "image/png", some "QUJD"⟩ ∧
      (generateAiContent (some ⟨"https://i/full.jpg", "Sunset", none, none⟩) "" false
        (.ok ⟨"image/png", "QUJD"⟩) (.ok ["x"])).encodeFetches = 1 ∧
      (generateAiContent
          ((generateAiContent (some ⟨"https://i/full.jpg", "Sunset", none, none⟩) "" false
              (.ok ⟨"image/png", "QUJD"⟩) (.ok ["x"])).imageData)
          "" false (.ok ⟨"image/png", "QUJD"⟩) (.ok ["y"])).encodeFetches = 0 ∧
      (generateAiContent
          ((generateAiContent (some ⟨"https://i/full.jpg", "Sunset", none, none⟩) "" false
              (.ok ⟨"image/png", "QUJD"⟩) (.ok ["x"])).imageData)
          "" false (.ok ⟨"image/png", "QUJD"⟩) (.ok ["y"])).imageData =
        (generateAiContent (some ⟨"https://i/full.jpg", "Sunset", none, none⟩) "" false
            (.ok ⟨"image/png", "QUJD"⟩) (.ok ["x"])).imageData ∧
      openLightbox "u" "t" = some ⟨"u", "t", none, none⟩ ∧
      closeLightbox = none) :=
  ⟨⟨by decide, by decide⟩,
    encode_cached_once ⟨"https://i/full.jpg", "Sunset", none, none⟩
      ⟨"image/png", "QUJD"⟩ (.ok ["x"]) (.ok ["y"]) (.ok ⟨"image/png", "QUJD"⟩)
      "" "u" "t" false (by decide) (by decide)⟩

/-- C7: a `generate()` call with no active Image Reference is a complete
no-op: no encoding fetch, no generation request, and the output target's
content is unchanged. -/
theorem generate_noop_without_selection (display : String) (isChat : Bool)
    (enc : Except String Encoding) (stream : Except String (List String)) :
    generateAiContent none display isChat enc stream =
      { imageData := none, display := display, encodeFetches := 0, genRequests := 0 } :=
  rfl

/-- C8: a streamed generation leaves the output target holding exactly the
concatenation of the received chunks in arrival order (appended to the old
transcript in chat mode, replacing the cleared pane otherwise); in
particular the chunks `["Once", "upon", "a time"]` yield a pane holding
`"Onceupona time"`, with no inserted separators. -/
theorem stream_chunks_concatenated (img : ImageData) (display : String)
    (isChat : Bool) (e : Encoding) (chunks : List String) :
    (generateAiContent (some img) display isChat (.ok e) (.ok chunks)).display =
      (if isChat then display else "") ++ String.join chunks ∧
    (generateAiContent (openLightbox "https://i/full.jpg" "Sunset") "" false (.ok e)
        (.ok ["Once", "upon", "a time"])).display = "Onceupona time" := by
  constructor
  · cases h : truthyStr img.base64 <;> simp [generateAiContent, h]
  · rfl

/-- C10: when the encoding fetch fails during `generate()`, nothing is
cached on the Image Reference (it is returned unchanged, so `mimeType` and
`base64` stay unset), no generation request is issued, the error indicator
is written to the output target, and a subsequent `generate()` call for the
same selection attempts the encoding fetch again. -/
theorem encode_failure_not_cached (img : ImageData) (display d2 : String)
    (isChat c2 : Bool) (msg : String)
    (stream stream2 : Except String (List String))
    (enc2 : Except String Encoding) (hb : img.base64 = none) :
    (generateAiContent (some img) display isChat (.error msg) stream).imageData =
      some img ∧
    (generateAiContent (some img) display isChat (.error msg) stream).display =
      (if isChat then display else "") ++ errorHtml msg ∧
    (generateAiContent (some img) display isChat (.error msg) stream).genRequests = 0 ∧
    (generateAiContent
        ((generateAiContent (some img) display isChat (.error msg) stream).imageData)
        d2 c2 enc2 stream2).encodeFetches = 1 := by
  rcases enc2 with m2 | e2 <;>
    rcases stream2 with m3 | ch2 <;>
      simp [generateAiContent, truthyStr, hb]

/-- C10 witness: a failed encoding fetch caches nothing and the next call
fetches again. -/
theorem encode_failure_not_cached_witness :
    (⟨"https://i/full.jpg", "Sunset", none, none⟩ : ImageData).base64 = none ∧
    ((generateAiContent (some ⟨"https://i/full.jpg", "Sunset", none, none⟩) "old" false
        (.error "net down") (.ok ["x"])).imageData =
      some ⟨"https://i/full.jpg", "Sunset", none, none⟩ ∧
      (generateAiContent (some ⟨"https://i/full.jpg", "Sunset", none, none⟩) "old" false
        (.error "net down") (.ok ["x"])).display =
        (if false then "old" else "") ++ errorHtml "net down" ∧
      (generateAiContent (some ⟨"https://i/full.jpg", "Sunset", none, none⟩) "old" false
        (.error "net down") (.ok ["x"])).genRequests = 0 ∧
      (generateAiContent
          ((generateAiContent (some ⟨"https://i/full.jpg", "Sunset", none, none⟩) "old" false
              (.error "net down") (.ok ["x"])).imageData)
          "old" false (.ok ⟨"image/png", "QUJD"⟩) (.ok ["x"])).encodeFetches = 1) :=
  ⟨by decide,
    encode_failure_not_cached ⟨"https://i/full.jpg", "Sunset", none, none⟩ "old" "old"
      false false "net down" (.ok ["x"]) (.ok ["x"]) (.ok ⟨"image/png", "QUJD"⟩)
      (by decide)⟩

end CommonsExplorer
